import Mathlib

/-!
Verification of the trend-scoring and content-safety pipeline of the
pr-campaign-system repository, as a shallow embedding in Lean 4.

Conventions of the embedding:
* Python floats are modelled as rationals (`ℚ`); the numeric claims are about
  the exact arithmetic the code writes down, not binary64 rounding.
* Timestamps are modelled as integers (`ℤ`, seconds unless noted).
* Python dictionaries with known field sets become structures; a field read
  with `dict.get(key, default)` becomes an `Option` field read with `getD`,
  and Python's `x or d` defaulting (which also replaces falsy values such as
  `0` and `""`) is modelled by `pyOr`.
* Python exceptions are modelled with `Except`: a `try/except` body that can
  raise becomes a function returning `Except`, and the handler is the
  `Except.error` branch.
* Python string operations are modelled on the character list of the string
  (`lower` is modelled on the ASCII range, which covers every string constant
  of the program; `in` is substring containment; slicing is `List.take`).
-/

deriving instance DecidableEq for Except

/-! # Python-style string and value helpers -/

/-- ASCII lowering of one character, as Python `str.lower` acts on the
program's ASCII string constants. -/
def pyCharLower (c : Char) : Char :=
  if 65 ≤ c.toNat ∧ c.toNat ≤ 90 then Char.ofNat (c.toNat + 32) else c

/-- Python `s.lower()`, character by character. -/
def pyLower (s : String) : String :=
  String.mk (s.data.map pyCharLower)

/-- `needle` occurs as a contiguous sublist of `hay`. -/
def listContainsSub (needle : List Char) : List Char → Bool
  | [] => needle.isEmpty
  | c :: rest => needle.isPrefixOf (c :: rest) || listContainsSub needle rest

/-- Python `needle in hay` for strings: substring containment. -/
def pyContains (hay needle : String) : Bool :=
  listContainsSub needle.data hay.data

/-- Python `s[:n]`: the first `n` characters. -/
def pyTake (s : String) (n : Nat) : String :=
  String.mk (s.data.take n)

/-- Python `s.split(sep)[-1]` for a one-character separator: the suffix after
the last occurrence of the separator (the whole string when absent). -/
def pyAfterLastChar (s : String) (sep : Char) : String :=
  String.mk ((s.data.reverse.takeWhile (fun c => !(c == sep))).reverse)

/-- Python `x or d` on an optional number: the default replaces both a
missing (`None`) and a falsy (`0`) value. -/
def pyOr (x : Option ℚ) (d : ℚ) : ℚ :=
  match x with
  | none => d
  | some v => if v = 0 then d else v

theorem pyOr_none (d : ℚ) : pyOr none d = d := rfl

theorem pyOr_ne_zero (x : Option ℚ) (d : ℚ) (hd : d ≠ 0) : pyOr x d ≠ 0 := by
  cases x with
  | none => simpa [pyOr] using hd
  | some v =>
    by_cases hv : v = 0 <;> simp [pyOr, hv, hd]

theorem pyOr_some_of_ne_zero (v : ℚ) (d : ℚ) (hv : v ≠ 0) :
    pyOr (some v) d = v := by
  simp [pyOr, hv]

/-- `min hi (max lo x)` lies in `[lo, hi]` (the clamp shape
`min(hi, max(lo, x))` used by the 0–100 score functions). -/
theorem clamp_min_max_mem (lo hi x : ℚ) (h : lo ≤ hi) :
    lo ≤ min hi (max lo x) ∧ min hi (max lo x) ≤ hi :=
  ⟨le_min h (le_max_left _ _), min_le_left _ _⟩

/-- `max lo (min hi x)` lies in `[lo, hi]` (the clamp shape
`max(lo, min(hi, x))` used by the source trending score). -/
theorem clamp_max_min_mem (lo hi x : ℚ) (h : lo ≤ hi) :
    lo ≤ max lo (min hi x) ∧ max lo (min hi x) ≤ hi :=
  ⟨le_max_left _ _, max_le h (min_le_left _ _)⟩

/-! # AI Provider Gateway
(`backend/app/services/angle_generation/ai_service.py`, class `AIService`) -/

namespace AIGateway

/-- One configured provider: its registration name and the outcome of
`generate_completion` as a function of the model name it is asked for.
An `Except.error` outcome is the provider raising. -/
structure ProviderEntry where
  name : String
  generate_completion : String → Except Unit String

/-- `AIService`: the configured providers in registration (dict insertion)
order, and the configured default provider name. -/
structure AIService where
  providers : List ProviderEntry
  default_provider : String

/-- The failure `generate_with_fallback` raises when no provider succeeds:
`Exception("All AI providers failed")`, the spec's `AllProvidersExhausted`. -/
inductive GenError where
  | allProvidersExhausted
deriving DecidableEq, Repr

/-- `AIService._adjust_model_for_provider`. -/
def adjust_model_for_provider (model provider : String) : String :=
  if provider = "openrouter" then
    if !(pyContains model "/") then
      if pyContains (pyLower model) "gpt" then "openai/" ++ model
      else if pyContains (pyLower model) "claude" then "anthropic/" ++ model
      else model
    else model
  else if provider = "openai" then
    if pyContains model "/" then pyAfterLastChar model '/' else model
  else if provider = "anthropic" then
    if pyContains model "/" then pyAfterLastChar model '/' else model
  else model

/-- The attempt on the default provider: `self.providers[self.default_provider]`
called with the primary model, when that provider is configured. -/
def defaultAttempt (l : List ProviderEntry) (d primary_model : String) :
    List (String × Except Unit String) :=
  match l.find? (fun p => p.name == d) with
  | some p => [(p.name, p.generate_completion primary_model)]
  | none => []

/-- The fallback loop's attempts: every provider other than the default, in
registration order, called with the fallback model translated by
`_adjust_model_for_provider`. -/
def fallbackAttempts (l : List ProviderEntry) (d fallback_model : String) :
    List (String × Except Unit String) :=
  (l.filter (fun p => p.name != d)).map
    (fun p => (p.name, p.generate_completion
        (adjust_model_for_provider fallback_model p.name)))

/-- The attempts `generate_with_fallback` makes, in order: the default
provider first (with the primary model) when it is configured, then every
other provider in registration order (with the fallback model). Each entry
is the provider's name paired with the outcome of its
`generate_completion` call. -/
def attempts (svc : AIService) (primary_model fallback_model : String) :
    List (String × Except Unit String) :=
  defaultAttempt svc.providers svc.default_provider primary_model ++
    fallbackAttempts svc.providers svc.default_provider fallback_model

/-- Walk the attempt list: return the first success, or raise after all of
them failed. The first component records the providers actually attempted. -/
def firstOk : List (String × Except Unit String) →
    List String × Except GenError String
  | [] => ([], Except.error GenError.allProvidersExhausted)
  | (n, Except.ok r) :: _ => ([n], Except.ok r)
  | (n, Except.error _) :: rest =>
      let x := firstOk rest
      (n :: x.1, x.2)

/-- `AIService.generate_with_fallback`, instrumented with the list of
providers attempted: try the configured default provider with the primary
model, then every remaining provider in registration order with the adjusted
fallback model, returning the first success and raising
`AllProvidersExhausted` once every attempt has failed. -/
def generate_with_fallback (svc : AIService) (primary_model fallback_model : String) :
    List String × Except GenError String :=
  firstOk (attempts svc primary_model fallback_model)

theorem firstOk_all_error (l : List (String × Except Unit String))
    (h : ∀ a ∈ l, a.2 = Except.error ()) :
    firstOk l = (l.map Prod.fst, Except.error GenError.allProvidersExhausted) := by
  induction l with
  | nil => rfl
  | cons a rest ih =>
    obtain ⟨n, e⟩ := a
    have ha := h (n, e) (List.mem_cons_self _ _)
    simp only at ha
    subst ha
    simp only [firstOk, List.map_cons]
    rw [ih (fun b hb => h b (List.mem_cons_of_mem _ hb))]

theorem firstOk_success (l : List (String × Except Unit String)) (M : Nat)
    (p : String × Except Unit String) (t : String)
    (herr : ∀ a ∈ l.take M, a.2 = Except.error ())
    (hp : l[M]? = some p) (ht : p.2 = Except.ok t) :
    firstOk l = ((l.take (M + 1)).map Prod.fst, Except.ok t) := by
  induction l generalizing M with
  | nil => simp at hp
  | cons a rest ih =>
    obtain ⟨n, e⟩ := a
    cases M with
    | zero =>
      simp only [List.getElem?_cons_zero, Option.some.injEq] at hp
      subst hp
      simp only at ht
      subst ht
      rfl
    | succ m =>
      have ha := herr (n, e) (by simp [List.take_succ_cons])
      simp only at ha
      subst ha
      have hrest := ih m
        (fun b hb => herr b (by simp [List.take_succ_cons, hb]))
        (by simpa using hp)
      simp only [firstOk, List.take_succ_cons, List.map_cons]
      rw [hrest]

theorem attempt_list_names_perm (l : List ProviderEntry) (d pm fm : String)
    (hnd : (l.map ProviderEntry.name).Nodup) :
    ((defaultAttempt l d pm ++ fallbackAttempts l d fm).map Prod.fst).Perm
      (l.map ProviderEntry.name) := by
  induction l with
  | nil => simp [defaultAttempt, fallbackAttempts]
  | cons e rest ih =>
    simp only [List.map_cons, List.nodup_cons] at hnd
    obtain ⟨hnotmem, hrest⟩ := hnd
    by_cases he : e.name = d
    · have hfilter : rest.filter (fun p => p.name != d) = rest := by
        rw [List.filter_eq_self]
        intro x hx
        simp only [bne_iff_ne, ne_eq]
        intro hxd
        exact hnotmem (by rw [← he] at hxd; exact hxd ▸ List.mem_map_of_mem ProviderEntry.name hx)
      have hfind : (e :: rest).find? (fun p => p.name == d) = some e := by
        simp [List.find?_cons, he]
      have hfb : fallbackAttempts (e :: rest) d fm = fallbackAttempts rest d fm := by
        simp [fallbackAttempts, List.filter_cons, he]
      rw [hfb]
      have h1 : defaultAttempt (e :: rest) d pm = [(e.name, e.generate_completion pm)] := by
        simp [defaultAttempt, hfind]
      have h2 : (fallbackAttempts rest d fm).map Prod.fst = rest.map ProviderEntry.name := by
        rw [fallbackAttempts, hfilter, List.map_map]
        rfl
      rw [h1]
      simp only [List.cons_append, List.nil_append, List.map_cons, h2]
      exact List.Perm.refl _
    · have hfind : (e :: rest).find? (fun p => p.name == d) =
          rest.find? (fun p => p.name == d) := by
        simp [List.find?_cons, he]
      have hfb : fallbackAttempts (e :: rest) d fm =
          (e.name, e.generate_completion (adjust_model_for_provider fm e.name)) ::
            fallbackAttempts rest d fm := by
        simp [fallbackAttempts, List.filter_cons, he]
      have hmid : ((defaultAttempt (e :: rest) d pm ++ fallbackAttempts (e :: rest) d fm).map
            Prod.fst).Perm
          (e.name :: (defaultAttempt rest d pm ++ fallbackAttempts rest d fm).map Prod.fst) := by
        rw [hfb]
        simp only [defaultAttempt, hfind, List.map_append, List.map_cons]
        exact List.perm_middle
      exact hmid.trans ((ih hrest).cons e.name)

/-- The names attempted are exactly the configured providers' names (each
provider is attempted exactly once), given that provider names are
distinct, as dict keys are. -/
theorem attempts_names_perm (svc : AIService) (primary_model fallback_model : String)
    (hnd : (svc.providers.map ProviderEntry.name).Nodup) :
    ((attempts svc primary_model fallback_model).map Prod.fst).Perm
      (svc.providers.map ProviderEntry.name) :=
  attempt_list_names_perm svc.providers svc.default_provider primary_model fallback_model hnd

end AIGateway

/-- Example service for concrete evaluation: the default provider raises,
the second configured provider succeeds. -/
def svcEx : AIGateway.AIService :=
  { providers :=
      [ { name := "openrouter", generate_completion := fun _ => Except.error () },
        { name := "openai", generate_completion := fun _ => Except.ok "hi" } ],
    default_provider := "openrouter" }

/-- Example service whose providers all raise. -/
def svcExAllFail : AIGateway.AIService :=
  { providers :=
      [ { name := "openrouter", generate_completion := fun _ => Except.error () },
        { name := "openai", generate_completion := fun _ => Except.error () } ],
    default_provider := "openrouter" }

/-- C1: `generate_with_fallback` attempts the default provider first and the
remaining configured providers once each in registration order; when the
first `M` attempts raise and the `(M+1)`-th succeeds it returns that
provider's completion text, having attempted exactly the first `M+1`
providers; with no provider configured, or with every attempt raising, it
fails with `AllProvidersExhausted` only after every configured provider has
been attempted exactly once in a single pass. -/
theorem C1_generate_with_fallback :
    (∀ (svc : AIGateway.AIService) (pm fm : String) (M : Nat)
        (p : String × Except Unit String) (t : String),
        (∀ a ∈ (AIGateway.attempts svc pm fm).take M, a.2 = Except.error ()) →
        (AIGateway.attempts svc pm fm)[M]? = some p →
        p.2 = Except.ok t →
        AIGateway.generate_with_fallback svc pm fm =
          (((AIGateway.attempts svc pm fm).take (M + 1)).map Prod.fst, Except.ok t)) ∧
    (∀ (d pm fm : String),
        AIGateway.generate_with_fallback ⟨[], d⟩ pm fm =
          ([], Except.error AIGateway.GenError.allProvidersExhausted)) ∧
    (∀ (svc : AIGateway.AIService) (pm fm : String),
        (∀ a ∈ AIGateway.attempts svc pm fm, a.2 = Except.error ()) →
        (svc.providers.map AIGateway.ProviderEntry.name).Nodup →
        AIGateway.generate_with_fallback svc pm fm =
          ((AIGateway.attempts svc pm fm).map Prod.fst,
            Except.error AIGateway.GenError.allProvidersExhausted) ∧
          ((AIGateway.attempts svc pm fm).map Prod.fst).Perm
            (svc.providers.map AIGateway.ProviderEntry.name)) := by
  refine ⟨?_, ?_, ?_⟩
  · intro svc pm fm M p t herr hp ht
    exact AIGateway.firstOk_success _ M p t herr hp ht
  · intro d pm fm
    rfl
  · intro svc pm fm hall hnd
    exact ⟨AIGateway.firstOk_all_error _ hall,
      AIGateway.attempts_names_perm svc pm fm hnd⟩

/-- Witness for C1 at concrete inputs: with the default provider raising and
the second provider succeeding, the fallback chain attempts both and returns
the second provider's text; with both raising it attempts both and fails
with `AllProvidersExhausted`. -/
theorem C1_generate_with_fallback_witness :
    AIGateway.generate_with_fallback svcEx "m" "f" =
      (((AIGateway.attempts svcEx "m" "f").take 2).map Prod.fst, Except.ok "hi") ∧
    AIGateway.generate_with_fallback svcExAllFail "m" "f" =
      ((AIGateway.attempts svcExAllFail "m" "f").map Prod.fst,
        Except.error AIGateway.GenError.allProvidersExhausted) :=
  ⟨C1_generate_with_fallback.1 svcEx "m" "f" 1 ("openai", Except.ok "hi") "hi"
      (by decide) (by decide) rfl,
    ((C1_generate_with_fallback.2.2 svcExAllFail "m" "f" (by decide) (by decide)).1)⟩

/-! # Content Safety Classifier
(`backend/app/services/content_categorization/ai_categorizer.py`) and its
caller-side inclusion policy
(`backend/app/services/trend_detection/reddit_service.py`). -/

namespace Categorizer

/-- `ContentSafetyLevel` (the enum values `safe` … `blocked`). -/
inductive ContentSafetyLevel where
  | SAFE
  | CAUTION
  | POLITICAL
  | VIOLENT
  | CONTROVERSIAL
  | NSFW
  | BLOCKED
deriving DecidableEq, Repr

/-- `ContentSafetyLevel(value)`: the enum member whose value is the given
string, or a `ValueError` (modelled `none`). -/
def contentSafetyLevelOfString : String → Option ContentSafetyLevel
  | "safe" => some ContentSafetyLevel.SAFE
  | "caution" => some ContentSafetyLevel.CAUTION
  | "political" => some ContentSafetyLevel.POLITICAL
  | "violent" => some ContentSafetyLevel.VIOLENT
  | "controversial" => some ContentSafetyLevel.CONTROVERSIAL
  | "nsfw" => some ContentSafetyLevel.NSFW
  | "blocked" => some ContentSafetyLevel.BLOCKED
  | _ => none

/-- `ContentCategory` (the `metadata_signals` field, a free-form dict echoed
back to the caller, is omitted: no claim reads it). -/
structure ContentCategory where
  safety_level : ContentSafetyLevel
  confidence : ℚ
  primary_category : String
  secondary_categories : List String
  reasoning : String
  is_brand_safe : Bool
deriving DecidableEq, Repr

/-- The per-post Reddit metadata consumed by `_extract_metadata_signals`
(fields read from the `reddit_metadata` dict, with the `dict.get` defaults
already reflected in the types). -/
structure RedditMetadata where
  over_18 : Bool
  link_flair_text : Option String
  author_flair_text : Option String
  locked : Bool
  stickied : Bool
  gilded : Nat
  awards_received : Nat
deriving DecidableEq, Repr

/-- The default metadata used when `reddit_metadata` is `None`
(`reddit_metadata or {}`: every `get` then yields its default). -/
def emptyRedditMetadata : RedditMetadata :=
  { over_18 := false, link_flair_text := none, author_flair_text := none,
    locked := false, stickied := false, gilded := 0, awards_received := 0 }

/-- The signals dict built by `_extract_metadata_signals`. A flair signal is
present only when the flair text is truthy (non-`None` and non-empty), and is
lower-cased. `nsfw`, `locked`, `stickied` model the presence-or-default reads
`signals.get(key, False)`; `gilded` and `awarded` model
`signals.get(key, 0)`. -/
structure MetadataSignals where
  nsfw : Bool
  post_flair : Option String
  author_flair : Option String
  locked : Bool
  stickied : Bool
  gilded : Nat
  awarded : Nat
deriving DecidableEq, Repr

/-- `AIContentCategorizer._extract_metadata_signals`. -/
def extract_metadata_signals (m : RedditMetadata) : MetadataSignals :=
  { nsfw := m.over_18
    post_flair :=
      match m.link_flair_text with
      | some s => if s = "" then none else some (pyLower s)
      | none => none
    author_flair :=
      match m.author_flair_text with
      | some s => if s = "" then none else some (pyLower s)
      | none => none
    locked := m.locked
    stickied := m.stickied
    gilded := m.gilded
    awarded := m.awards_received }

/-- The configuration surface the classifier and its caller consume
(`backend/app/core/config.py` field names). -/
structure Config where
  BLOCKED_SUBREDDITS : List String
  BLOCKED_FLAIRS : List String
  ALLOW_CAUTION_CONTENT : Bool
  AI_CATEGORIZATION_MIN_CONFIDENCE : ℚ
  AI_CATEGORIZATION_ENABLED : Bool
  CONTENT_FILTER_ENABLED : Bool
  FALLBACK_TO_KEYWORD_FILTER : Bool
  CONTENT_FILTER_WAR_KEYWORDS : List String
  CONTENT_FILTER_POLITICS_KEYWORDS : List String
  CONTENT_FILTER_VIOLENCE_KEYWORDS : List String

/-- `AIContentCategorizer._check_immediate_blocks`: NSFW metadata, a
block-listed subreddit, or a post flair containing a block-listed entry
(case-insensitive substring) is blocked with the returned reason. -/
def check_immediate_blocks (cfg : Config) (_title _description subreddit : String)
    (metadata_signals : MetadataSignals) : Option String :=
  if metadata_signals.nsfw then some "NSFW content"
  else if (cfg.BLOCKED_SUBREDDITS.map pyLower).contains (pyLower subreddit) then
    some ("Blocked subreddit: " ++ subreddit)
  else
    match metadata_signals.post_flair with
    | some flair =>
        if (cfg.BLOCKED_FLAIRS.map pyLower).any (fun blocked => pyContains flair blocked) then
          some ("Blocked flair: " ++ flair)
        else none
    | none => none

/-- The dict parsed from the AI's JSON response (fields read by
`_combine_signals`, each with its `dict.get` default available). -/
structure AIResultDict where
  safety_level : Option String
  confidence : Option ℚ
  primary_category : Option String
  secondary_categories : Option (List String)
  reasoning : Option String
deriving DecidableEq, Repr

/-- The outcome of the provider call plus JSON parse inside
`_ai_categorize`'s `try` block: a parsed dict, or any raised exception
(provider failure or malformed JSON) with its message. -/
inductive AIOutcome where
  | ok (r : AIResultDict)
  | failure (msg : String)

/-- The outcome of building the prompt
(`settings.AI_CATEGORIZATION_USER_PROMPT_TEMPLATE.format(...)`), which runs
before `_ai_categorize`'s `try` block: a formatting error there is the one
exception that escapes to `categorize_content`'s top-level handler. -/
inductive PromptFormat where
  | ok (prompt : String)
  | err (msg : String)

/-- `AIContentCategorizer._ai_categorize`: the prompt is formatted outside
the `try` block (its failure propagates); a failing call or unparsable
response is replaced by the `CAUTION`/0.3 fallback dict. -/
def ai_categorize (fmt : PromptFormat) (oracle : AIOutcome) :
    Except String AIResultDict :=
  match fmt with
  | PromptFormat.err m => Except.error m
  | PromptFormat.ok _ =>
    match oracle with
    | AIOutcome.ok r => Except.ok r
    | AIOutcome.failure msg =>
        Except.ok
          { safety_level := some "CAUTION"
            confidence := some (3/10)
            primary_category := some "unknown"
            secondary_categories := some []
            reasoning := some ("AI analysis failed: " ++ msg) }

/-- `AIContentCategorizer._combine_signals`: parse the AI dict, nudge a
`safe` verdict's confidence up for awarded content (capped at 1), downgrade
a locked `safe` verdict to `caution` with reduced confidence (floored at
0.3), then set `is_brand_safe` to exactly
(level ∈ {safe, caution} and confidence ≥ 0.7). A `ValueError` from an
unknown safety-level string is caught into the `caution`/0.3 error
verdict. -/
def combine_signals (ai_result : AIResultDict) (metadata_signals : MetadataSignals) :
    ContentCategory :=
  match contentSafetyLevelOfString (pyLower (ai_result.safety_level.getD "caution")) with
  | none =>
      { safety_level := ContentSafetyLevel.CAUTION
        confidence := 3/10
        primary_category := "error"
        secondary_categories := []
        reasoning := "Analysis error: invalid safety level"
        is_brand_safe := false }
  | some level0 =>
      let confidence0 := ai_result.confidence.getD (1/2)
      let confidence1 :=
        if (metadata_signals.gilded > 0 ∨ metadata_signals.awarded > 0) ∧
            level0 = ContentSafetyLevel.SAFE then
          min 1 (confidence0 + 1/10)
        else confidence0
      let level2 :=
        if metadata_signals.locked ∧ level0 = ContentSafetyLevel.SAFE then
          ContentSafetyLevel.CAUTION
        else level0
      let confidence2 :=
        if metadata_signals.locked ∧ level0 = ContentSafetyLevel.SAFE then
          max (confidence1 - 1/5) (3/10)
        else confidence1
      { safety_level := level2
        confidence := confidence2
        primary_category := ai_result.primary_category.getD "unknown"
        secondary_categories := ai_result.secondary_categories.getD []
        reasoning := ai_result.reasoning.getD "AI analysis completed"
        is_brand_safe :=
          decide ((level2 = ContentSafetyLevel.SAFE ∨ level2 = ContentSafetyLevel.CAUTION) ∧
            confidence2 ≥ 7/10) }

/-- `AIContentCategorizer.categorize_content`: immediate blocks first (no AI
call), then AI categorization combined with metadata signals; any exception
that reaches the top level (the prompt-format failure) becomes the
`caution`/0.5 "categorization failed" verdict. Total: the classifier never
raises. -/
def categorize_content (cfg : Config) (fmt : PromptFormat) (oracle : AIOutcome)
    (title description subreddit : String)
    (reddit_metadata : Option RedditMetadata) : ContentCategory :=
  let metadata_signals := extract_metadata_signals (reddit_metadata.getD emptyRedditMetadata)
  match check_immediate_blocks cfg title description subreddit metadata_signals with
  | some immediate_block =>
      { safety_level := ContentSafetyLevel.BLOCKED
        confidence := 1
        primary_category := "auto_blocked"
        secondary_categories := []
        reasoning := "Automatically blocked: " ++ immediate_block
        is_brand_safe := false }
  | none =>
      match ai_categorize fmt oracle with
      | Except.ok ai_result => combine_signals ai_result metadata_signals
      | Except.error e =>
          { safety_level := ContentSafetyLevel.CAUTION
            confidence := 1/2
            primary_category := "analysis_failed"
            secondary_categories := []
            reasoning := "Categorization failed, defaulting to caution: " ++ e
            is_brand_safe := false }

end Categorizer

/-! # Reddit collector: metadata extraction, inclusion policy, per-post
filtering pipeline (`backend/app/services/trend_detection/reddit_service.py`). -/

namespace RedditSvc

open Categorizer

/-- The praw post attributes the collector reads (with `getattr` defaults
already reflected in the types; a `None`/absent `selftext` is the empty
string, as the code immediately replaces falsy `selftext` by `''`). -/
structure RedditPost where
  title : String
  selftext : String
  subreddit : String
  over_18 : Bool
  locked : Bool
  stickied : Bool
  gilded : Nat
  total_awards_received : Nat
  link_flair_text : Option String
  author_flair_text : Option String
  is_video : Bool
  is_original_content : Bool
  is_reddit_media_domain : Bool
  domain : String
  score : ℤ
  upvote_ratio : ℚ
  num_comments : ℤ
  created_utc : ℚ
deriving DecidableEq, Repr

/-- `RedditService._extract_reddit_metadata`, restricted to the fields any
modelled consumer (`_extract_metadata_signals`) reads; the engagement echo
fields (`score`, `upvote_ratio`, `num_comments`, domain flags) have no
modelled reader. -/
def extract_reddit_metadata (post : RedditPost) : RedditMetadata :=
  { over_18 := post.over_18
    link_flair_text := post.link_flair_text
    author_flair_text := post.author_flair_text
    locked := post.locked
    stickied := post.stickied
    gilded := post.gilded
    awards_received := post.total_awards_received }

/-- `RedditService._should_include_content`: the caller-side inclusion
policy over the classifier's verdict. -/
def should_include_content (cfg : Config) (content_category : Option ContentCategory) :
    Bool :=
  match content_category with
  | none => true
  | some cat =>
    if cat.safety_level = ContentSafetyLevel.BLOCKED ∨
        cat.safety_level = ContentSafetyLevel.VIOLENT ∨
        cat.safety_level = ContentSafetyLevel.NSFW ∨
        cat.safety_level = ContentSafetyLevel.POLITICAL then false
    else if cat.safety_level = ContentSafetyLevel.CONTROVERSIAL then
      decide (cat.confidence < 4/5)
    else if cat.safety_level = ContentSafetyLevel.CAUTION then
      cfg.ALLOW_CAUTION_CONTENT &&
        decide (cat.confidence ≥ cfg.AI_CATEGORIZATION_MIN_CONFIDENCE)
    else decide (cat.safety_level = ContentSafetyLevel.SAFE)

/-- The hard-coded restricted subreddit list of
`RedditService._is_content_filtered`. -/
def restricted_subreddits : List String :=
  ["politics", "worldpolitics", "conservative", "liberal",
   "the_donald", "sandersforpresident", "politicalhumor",
   "combatfootage", "ukraine", "russia", "war"]

/-- `RedditService._is_content_filtered`: the legacy keyword filter. -/
def is_content_filtered (cfg : Config) (post : RedditPost) : Bool :=
  let content_text := pyLower (post.title ++ " " ++ post.selftext)
  cfg.CONTENT_FILTER_WAR_KEYWORDS.any (fun k => pyContains content_text (pyLower k)) ||
  cfg.CONTENT_FILTER_POLITICS_KEYWORDS.any (fun k => pyContains content_text (pyLower k)) ||
  cfg.CONTENT_FILTER_VIOLENCE_KEYWORDS.any (fun k => pyContains content_text (pyLower k)) ||
  restricted_subreddits.contains (pyLower post.subreddit)

/-- The per-post filtering decision of `RedditService.get_trending_topics`
(lines 77–115): with AI categorization enabled the post is retained exactly
when `_should_include_content` accepts the classifier's verdict; with it
disabled the legacy keyword filter applies when enabled, else the post is
retained. (The defensive `except` around the classifier call is
unreachable: `categorize_content` is total.) -/
def post_pipeline_retained (cfg : Config) (fmt : PromptFormat) (oracle : AIOutcome)
    (post : RedditPost) (subreddit_name : String) : Bool :=
  let reddit_metadata := extract_reddit_metadata post
  if cfg.AI_CATEGORIZATION_ENABLED then
    let description := if post.selftext = "" then "" else pyTake post.selftext 500
    let content_category :=
      categorize_content cfg fmt oracle post.title description subreddit_name
        (some reddit_metadata)
    should_include_content cfg (some content_category)
  else if cfg.CONTENT_FILTER_ENABLED then !(is_content_filtered cfg post)
  else true

end RedditSvc

namespace Categorizer

/-- On every output path of the classifier the returned flag satisfies
`is_brand_safe = (level ∈ {safe, caution} ∧ confidence ≥ 0.7)`. -/
theorem categorize_is_brand_safe_eq (cfg : Config) (fmt : PromptFormat)
    (oracle : AIOutcome) (title description subreddit : String)
    (reddit_metadata : Option RedditMetadata) :
    (categorize_content cfg fmt oracle title description subreddit reddit_metadata).is_brand_safe
      = decide
        (((categorize_content cfg fmt oracle title description subreddit
            reddit_metadata).safety_level = ContentSafetyLevel.SAFE ∨
          (categorize_content cfg fmt oracle title description subreddit
            reddit_metadata).safety_level = ContentSafetyLevel.CAUTION) ∧
          (categorize_content cfg fmt oracle title description subreddit
            reddit_metadata).confidence ≥ 7/10) := by
  rcases hcb : check_immediate_blocks cfg title description subreddit
      (extract_metadata_signals (reddit_metadata.getD emptyRedditMetadata)) with _ | r
  · rcases hai : ai_categorize fmt oracle with e | ai
    · simp only [categorize_content, hcb, hai]
      norm_num
    · simp only [categorize_content, hcb, hai]
      rcases hlv : contentSafetyLevelOfString (pyLower (ai.safety_level.getD "caution")) with
          _ | level0
      · simp only [combine_signals, hlv]
        norm_num
      · simp only [combine_signals, hlv]
  · simp only [categorize_content, hcb]
    norm_num
    decide

end Categorizer

/-- C5: every verdict the classifier returns, on every output path,
satisfies `is_brand_safe = true → level ∈ {safe, caution} ∧ confidence ≥ 0.7`;
moreover on the AI-classification path (no immediate block) `is_brand_safe`
equals exactly `(level ∈ {safe, caution}) ∧ confidence ≥ 0.7`. -/
theorem C5_brand_safe_invariant (cfg : Categorizer.Config) (fmt : Categorizer.PromptFormat)
    (oracle : Categorizer.AIOutcome) (title description subreddit : String)
    (reddit_metadata : Option Categorizer.RedditMetadata) :
    ((Categorizer.categorize_content cfg fmt oracle title description subreddit
        reddit_metadata).is_brand_safe = true →
      ((Categorizer.categorize_content cfg fmt oracle title description subreddit
          reddit_metadata).safety_level = Categorizer.ContentSafetyLevel.SAFE ∨
        (Categorizer.categorize_content cfg fmt oracle title description subreddit
          reddit_metadata).safety_level = Categorizer.ContentSafetyLevel.CAUTION) ∧
        (Categorizer.categorize_content cfg fmt oracle title description subreddit
          reddit_metadata).confidence ≥ 7/10) ∧
    (Categorizer.check_immediate_blocks cfg title description subreddit
        (Categorizer.extract_metadata_signals
          (reddit_metadata.getD Categorizer.emptyRedditMetadata)) = none →
      (Categorizer.categorize_content cfg fmt oracle title description subreddit
          reddit_metadata).is_brand_safe = decide
        (((Categorizer.categorize_content cfg fmt oracle title description subreddit
            reddit_metadata).safety_level = Categorizer.ContentSafetyLevel.SAFE ∨
          (Categorizer.categorize_content cfg fmt oracle title description subreddit
            reddit_metadata).safety_level = Categorizer.ContentSafetyLevel.CAUTION) ∧
          (Categorizer.categorize_content cfg fmt oracle title description subreddit
            reddit_metadata).confidence ≥ 7/10)) := by
  constructor
  · intro h
    have heq := Categorizer.categorize_is_brand_safe_eq cfg fmt oracle title description
      subreddit reddit_metadata
    rw [h] at heq
    exact of_decide_eq_true heq.symm
  · intro _
    exact Categorizer.categorize_is_brand_safe_eq cfg fmt oracle title description
      subreddit reddit_metadata

/-- Example configuration, mirroring the defaults of
`backend/app/core/config.py` on the modelled fields (block lists elided to
representative entries). -/
def cfgEx : Categorizer.Config :=
  { BLOCKED_SUBREDDITS := ["politics", "gore", "nsfw"]
    BLOCKED_FLAIRS := ["nsfw", "politics", "violence", "gore", "war", "breaking news"]
    ALLOW_CAUTION_CONTENT := true
    AI_CATEGORIZATION_MIN_CONFIDENCE := 7/10
    AI_CATEGORIZATION_ENABLED := true
    CONTENT_FILTER_ENABLED := false
    FALLBACK_TO_KEYWORD_FILTER := true
    CONTENT_FILTER_WAR_KEYWORDS := ["war", "battle", "conflict"]
    CONTENT_FILTER_POLITICS_KEYWORDS := ["election", "president"]
    CONTENT_FILTER_VIOLENCE_KEYWORDS := ["attack", "shooting"] }

/-- A benign metadata record (no NSFW flag, no flair, no awards). -/
def mdBenign : Categorizer.RedditMetadata :=
  { over_18 := false, link_flair_text := none, author_flair_text := none,
    locked := false, stickied := false, gilded := 0, awards_received := 0 }

/-- Witness for C5 at a concrete input: a `safe`/0.9 AI verdict on an
unblocked candidate is brand-safe, and its flag agrees with the defining
conjunction. -/
theorem C5_brand_safe_invariant_witness :
    ((Categorizer.categorize_content cfgEx (Categorizer.PromptFormat.ok "p")
        (Categorizer.AIOutcome.ok ⟨some "safe", some (9/10), none, none, none⟩)
        "t" "" "news" (some mdBenign)).safety_level = Categorizer.ContentSafetyLevel.SAFE ∨
      (Categorizer.categorize_content cfgEx (Categorizer.PromptFormat.ok "p")
        (Categorizer.AIOutcome.ok ⟨some "safe", some (9/10), none, none, none⟩)
        "t" "" "news" (some mdBenign)).safety_level = Categorizer.ContentSafetyLevel.CAUTION) ∧
      (Categorizer.categorize_content cfgEx (Categorizer.PromptFormat.ok "p")
        (Categorizer.AIOutcome.ok ⟨some "safe", some (9/10), none, none, none⟩)
        "t" "" "news" (some mdBenign)).confidence ≥ 7/10 := by
  refine (C5_brand_safe_invariant cfgEx (Categorizer.PromptFormat.ok "p")
      (Categorizer.AIOutcome.ok ⟨some "safe", some (9/10), none, none, none⟩)
      "t" "" "news" (some mdBenign)).1 ?_
  rw [Categorizer.categorize_is_brand_safe_eq]
  rw [show (Categorizer.categorize_content cfgEx (Categorizer.PromptFormat.ok "p")
      (Categorizer.AIOutcome.ok ⟨some "safe", some (9/10), none, none, none⟩)
      "t" "" "news" (some mdBenign)).safety_level = Categorizer.ContentSafetyLevel.SAFE from rfl]
  rw [show (Categorizer.categorize_content cfgEx (Categorizer.PromptFormat.ok "p")
      (Categorizer.AIOutcome.ok ⟨some "safe", some (9/10), none, none, none⟩)
      "t" "" "news" (some mdBenign)).confidence = 9/10 from rfl]
  simp only [decide_eq_true_eq]
  exact ⟨Or.inl trivial, by norm_num⟩

/-- C4: the caller-side inclusion policy excludes `blocked`, `violent`,
`nsfw`, `political` unconditionally; includes `controversial` exactly when
confidence is below the 0.8 threshold; includes `caution` exactly when the
configuration flag permits it and confidence meets the configured minimum;
and includes every `safe` verdict. -/
theorem C4_inclusion_policy (cfg : Categorizer.Config)
    (cat : Categorizer.ContentCategory) :
    ((cat.safety_level = Categorizer.ContentSafetyLevel.BLOCKED ∨
      cat.safety_level = Categorizer.ContentSafetyLevel.VIOLENT ∨
      cat.safety_level = Categorizer.ContentSafetyLevel.NSFW ∨
      cat.safety_level = Categorizer.ContentSafetyLevel.POLITICAL) →
      RedditSvc.should_include_content cfg (some cat) = false) ∧
    (cat.safety_level = Categorizer.ContentSafetyLevel.CONTROVERSIAL →
      (RedditSvc.should_include_content cfg (some cat) = true ↔ cat.confidence < 4/5)) ∧
    (cat.safety_level = Categorizer.ContentSafetyLevel.CAUTION →
      (RedditSvc.should_include_content cfg (some cat) = true ↔
        (cfg.ALLOW_CAUTION_CONTENT = true ∧
          cat.confidence ≥ cfg.AI_CATEGORIZATION_MIN_CONFIDENCE))) ∧
    (cat.safety_level = Categorizer.ContentSafetyLevel.SAFE →
      RedditSvc.should_include_content cfg (some cat) = true) := by
  refine ⟨?_, ?_, ?_, ?_⟩ <;> intro h
  · simp [RedditSvc.should_include_content, h]
  · rcases h' : cat.safety_level <;> simp_all [RedditSvc.should_include_content]
  · rcases h' : cat.safety_level <;> simp_all [RedditSvc.should_include_content]
  · rcases h' : cat.safety_level <;> simp_all [RedditSvc.should_include_content]

/-- Witness for C4 at concrete verdicts: a `blocked` verdict is excluded, a
confident `controversial` verdict (0.9 ≥ 0.8) is excluded, an uncertain
`controversial` verdict (0.5 < 0.8) is included, and a `safe` verdict is
included. -/
theorem C4_inclusion_policy_witness :
    RedditSvc.should_include_content cfgEx
      (some ⟨Categorizer.ContentSafetyLevel.BLOCKED, 1, "x", [], "r", false⟩) = false ∧
    RedditSvc.should_include_content cfgEx
      (some ⟨Categorizer.ContentSafetyLevel.CONTROVERSIAL, 9/10, "x", [], "r", false⟩) = false ∧
    RedditSvc.should_include_content cfgEx
      (some ⟨Categorizer.ContentSafetyLevel.CONTROVERSIAL, 1/2, "x", [], "r", false⟩) = true ∧
    RedditSvc.should_include_content cfgEx
      (some ⟨Categorizer.ContentSafetyLevel.SAFE, 9/10, "x", [], "r", true⟩) = true := by
  refine ⟨?_, ?_, ?_, ?_⟩
  · exact (C4_inclusion_policy cfgEx _).1 (Or.inl rfl)
  · have h := ((C4_inclusion_policy cfgEx
      ⟨Categorizer.ContentSafetyLevel.CONTROVERSIAL, 9/10, "x", [], "r", false⟩).2.1 rfl)
    rcases hb : RedditSvc.should_include_content cfgEx
        (some ⟨Categorizer.ContentSafetyLevel.CONTROVERSIAL, 9/10, "x", [], "r", false⟩) with _ | _
    · rfl
    · exfalso
      have := h.mp hb
      norm_num at this
  · exact ((C4_inclusion_policy cfgEx
      ⟨Categorizer.ContentSafetyLevel.CONTROVERSIAL, 1/2, "x", [], "r", false⟩).2.1 rfl).mpr
      (by norm_num)
  · exact (C4_inclusion_policy cfgEx
      ⟨Categorizer.ContentSafetyLevel.SAFE, 9/10, "x", [], "r", true⟩).2.2.2 rfl

/-- C3: the categorizer is total (it is a Lean function into
`ContentCategory`, never raising); when the AI call fails or its response is
not valid JSON (the `AIOutcome.failure` oracle) and no immediate block fires,
it produces a `caution` verdict with confidence 0.3 whose reasoning notes
the failure; and an exception escaping to the top level (the prompt
formatting failure, the one modelled unhandled exception) yields a `caution`
verdict with confidence 0.5 and `is_brand_safe = false`. -/
theorem C3_never_raises (cfg : Categorizer.Config) (prompt msg e : String)
    (oracle : Categorizer.AIOutcome) (title description subreddit : String)
    (reddit_metadata : Option Categorizer.RedditMetadata)
    (hnb : Categorizer.check_immediate_blocks cfg title description subreddit
      (Categorizer.extract_metadata_signals
        (reddit_metadata.getD Categorizer.emptyRedditMetadata)) = none) :
    ((Categorizer.categorize_content cfg (Categorizer.PromptFormat.ok prompt)
        (Categorizer.AIOutcome.failure msg) title description subreddit
        reddit_metadata).safety_level = Categorizer.ContentSafetyLevel.CAUTION ∧
      (Categorizer.categorize_content cfg (Categorizer.PromptFormat.ok prompt)
        (Categorizer.AIOutcome.failure msg) title description subreddit
        reddit_metadata).confidence = 3/10 ∧
      (Categorizer.categorize_content cfg (Categorizer.PromptFormat.ok prompt)
        (Categorizer.AIOutcome.failure msg) title description subreddit
        reddit_metadata).reasoning = "AI analysis failed: " ++ msg ∧
      (Categorizer.categorize_content cfg (Categorizer.PromptFormat.ok prompt)
        (Categorizer.AIOutcome.failure msg) title description subreddit
        reddit_metadata).is_brand_safe = false) ∧
    ((Categorizer.categorize_content cfg (Categorizer.PromptFormat.err e) oracle
        title description subreddit reddit_metadata).safety_level =
          Categorizer.ContentSafetyLevel.CAUTION ∧
      (Categorizer.categorize_content cfg (Categorizer.PromptFormat.err e) oracle
        title description subreddit reddit_metadata).confidence = 1/2 ∧
      (Categorizer.categorize_content cfg (Categorizer.PromptFormat.err e) oracle
        title description subreddit reddit_metadata).reasoning =
          "Categorization failed, defaulting to caution: " ++ e ∧
      (Categorizer.categorize_content cfg (Categorizer.PromptFormat.err e) oracle
        title description subreddit reddit_metadata).is_brand_safe = false) := by
  constructor
  · simp only [Categorizer.categorize_content, hnb, Categorizer.ai_categorize]
    simp [Categorizer.combine_signals, Categorizer.contentSafetyLevelOfString, pyLower,
      pyCharLower]
    norm_num
  · simp [Categorizer.categorize_content, hnb, Categorizer.ai_categorize]

/-- Witness for C3 at a concrete input: on a benign candidate with a failing
AI call the verdict is `caution`/0.3 noting the failure, and with a failing
prompt format it is `caution`/0.5 with `is_brand_safe = false`. -/
theorem C3_never_raises_witness :
    (Categorizer.categorize_content cfgEx (Categorizer.PromptFormat.ok "p")
      (Categorizer.AIOutcome.failure "boom") "t" "" "news"
      (some mdBenign)).confidence = 3/10 ∧
    (Categorizer.categorize_content cfgEx (Categorizer.PromptFormat.ok "p")
      (Categorizer.AIOutcome.failure "boom") "t" "" "news"
      (some mdBenign)).reasoning = "AI analysis failed: boom" ∧
    (Categorizer.categorize_content cfgEx (Categorizer.PromptFormat.err "bad template")
      (Categorizer.AIOutcome.failure "boom") "t" "" "news"
      (some mdBenign)).confidence = 1/2 ∧
    (Categorizer.categorize_content cfgEx (Categorizer.PromptFormat.err "bad template")
      (Categorizer.AIOutcome.failure "boom") "t" "" "news"
      (some mdBenign)).is_brand_safe = false := by
  have h := C3_never_raises cfgEx "p" "boom" "bad template"
    (Categorizer.AIOutcome.failure "boom") "t" "" "news" (some mdBenign) rfl
  exact ⟨h.1.2.1, h.1.2.2.1, h.2.2.1, h.2.2.2.2⟩

namespace Categorizer

/-- Any of the three immediate-block conditions makes
`_check_immediate_blocks` return a reason. -/
theorem check_immediate_blocks_isSome (cfg : Config)
    (title description subreddit : String) (signals : MetadataSignals)
    (h : signals.nsfw = true ∨
      (cfg.BLOCKED_SUBREDDITS.map pyLower).contains (pyLower subreddit) = true ∨
      ∃ flair, signals.post_flair = some flair ∧
        (cfg.BLOCKED_FLAIRS.map pyLower).any (fun blocked => pyContains flair blocked) = true) :
    (check_immediate_blocks cfg title description subreddit signals).isSome = true := by
  unfold check_immediate_blocks
  by_cases h1 : signals.nsfw = true
  · rw [if_pos h1]
    rfl
  · rw [if_neg h1]
    by_cases h2 : (cfg.BLOCKED_SUBREDDITS.map pyLower).contains (pyLower subreddit) = true
    · rw [if_pos h2]
      rfl
    · rw [if_neg h2]
      rcases h with h | h | h
      · exact absurd h h1
      · exact absurd h h2
      · obtain ⟨flair, hf, ha⟩ := h
        simp only [hf, ha, if_true]
        rfl

end Categorizer

/-- C2: a candidate whose source metadata marks adult content (`over_18`),
or whose subreddit is in the configured block-list, or whose post flair
contains a block-listed entry (case-insensitive substring), gets the
`blocked`/confidence-1.0/`is_brand_safe=false` verdict; the verdict is the
same for every AI oracle and prompt state (no AI call is made); the
inclusion policy rejects it; and the collector pipeline drops the post
whenever AI categorization (the pipeline in which the classifier runs) is
enabled. -/
theorem C2_immediate_block (cfg : Categorizer.Config) (fmt : Categorizer.PromptFormat)
    (oracle : Categorizer.AIOutcome) (post : RedditSvc.RedditPost)
    (subreddit_name description : String)
    (hblock : post.over_18 = true ∨
      (cfg.BLOCKED_SUBREDDITS.map pyLower).contains (pyLower subreddit_name) = true ∨
      ∃ s, post.link_flair_text = some s ∧ s ≠ "" ∧
        (cfg.BLOCKED_FLAIRS.map pyLower).any
          (fun blocked => pyContains (pyLower s) blocked) = true) :
    ((Categorizer.categorize_content cfg fmt oracle post.title description subreddit_name
        (some (RedditSvc.extract_reddit_metadata post))).safety_level =
          Categorizer.ContentSafetyLevel.BLOCKED ∧
      (Categorizer.categorize_content cfg fmt oracle post.title description subreddit_name
        (some (RedditSvc.extract_reddit_metadata post))).confidence = 1 ∧
      (Categorizer.categorize_content cfg fmt oracle post.title description subreddit_name
        (some (RedditSvc.extract_reddit_metadata post))).is_brand_safe = false) ∧
    (∀ (fmt' : Categorizer.PromptFormat) (oracle' : Categorizer.AIOutcome),
      Categorizer.categorize_content cfg fmt' oracle' post.title description subreddit_name
          (some (RedditSvc.extract_reddit_metadata post)) =
        Categorizer.categorize_content cfg fmt oracle post.title description subreddit_name
          (some (RedditSvc.extract_reddit_metadata post))) ∧
    RedditSvc.should_include_content cfg
      (some (Categorizer.categorize_content cfg fmt oracle post.title description
        subreddit_name (some (RedditSvc.extract_reddit_metadata post)))) = false ∧
    (cfg.AI_CATEGORIZATION_ENABLED = true →
      RedditSvc.post_pipeline_retained cfg fmt oracle post subreddit_name = false) := by
  have hsig : ∀ description',
      (Categorizer.check_immediate_blocks cfg post.title description' subreddit_name
        (Categorizer.extract_metadata_signals
          (RedditSvc.extract_reddit_metadata post))).isSome = true := by
    intro description'
    apply Categorizer.check_immediate_blocks_isSome
    rcases hblock with h | h | h
    · left
      simpa [Categorizer.extract_metadata_signals, RedditSvc.extract_reddit_metadata] using h
    · right; left; exact h
    · right; right
      obtain ⟨s, hs, hne, ha⟩ := h
      refine ⟨pyLower s, ?_, ha⟩
      simp [Categorizer.extract_metadata_signals, RedditSvc.extract_reddit_metadata, hs, hne]
  have hmain : ∀ (description' : String),
      ∃ r, ∀ (fmt' : Categorizer.PromptFormat) (oracle' : Categorizer.AIOutcome),
      Categorizer.categorize_content cfg fmt' oracle' post.title description'
          subreddit_name (some (RedditSvc.extract_reddit_metadata post)) =
        { safety_level := Categorizer.ContentSafetyLevel.BLOCKED
          confidence := 1
          primary_category := "auto_blocked"
          secondary_categories := []
          reasoning := "Automatically blocked: " ++ r
          is_brand_safe := false } := by
    intro description'
    rcases hcb : Categorizer.check_immediate_blocks cfg post.title description' subreddit_name
        (Categorizer.extract_metadata_signals (RedditSvc.extract_reddit_metadata post))
        with _ | r
    · exfalso
      have := hsig description'
      rw [hcb] at this
      simp at this
    · exact ⟨r, fun fmt' oracle' => by simp [Categorizer.categorize_content, hcb]⟩
  obtain ⟨r, hr⟩ := hmain description
  refine ⟨⟨by rw [hr fmt oracle], by rw [hr fmt oracle], by rw [hr fmt oracle]⟩, ?_, ?_, ?_⟩
  · intro fmt' oracle'
    rw [hr fmt' oracle', hr fmt oracle]
  · rw [hr fmt oracle]
    simp [RedditSvc.should_include_content]
  · intro hAI
    obtain ⟨r2, hr2⟩ := hmain (if post.selftext = "" then "" else pyTake post.selftext 500)
    simp only [RedditSvc.post_pipeline_retained, hAI, if_true]
    rw [hr2 fmt oracle]
    simp [RedditSvc.should_include_content]

/-- An `over_18` post with otherwise benign fields. -/
def postNsfw : RedditSvc.RedditPost :=
  { title := "some title", selftext := "", subreddit := "news",
    over_18 := true, locked := false, stickied := false, gilded := 0,
    total_awards_received := 0, link_flair_text := none, author_flair_text := none,
    is_video := false, is_original_content := false, is_reddit_media_domain := false,
    domain := "", score := 100, upvote_ratio := 9/10, num_comments := 10,
    created_utc := 0 }

/-- Witness for C2 at a concrete input: an `over_18` post is classified
`blocked` with confidence 1 and dropped by the pipeline, for an arbitrary
failing oracle state. -/
theorem C2_immediate_block_witness :
    (Categorizer.categorize_content cfgEx (Categorizer.PromptFormat.ok "p")
      (Categorizer.AIOutcome.failure "down") postNsfw.title "" "news"
      (some (RedditSvc.extract_reddit_metadata postNsfw))).safety_level =
        Categorizer.ContentSafetyLevel.BLOCKED ∧
    (Categorizer.categorize_content cfgEx (Categorizer.PromptFormat.ok "p")
      (Categorizer.AIOutcome.failure "down") postNsfw.title "" "news"
      (some (RedditSvc.extract_reddit_metadata postNsfw))).confidence = 1 ∧
    RedditSvc.post_pipeline_retained cfgEx (Categorizer.PromptFormat.ok "p")
      (Categorizer.AIOutcome.failure "down") postNsfw "news" = false := by
  have h := C2_immediate_block cfgEx (Categorizer.PromptFormat.ok "p")
    (Categorizer.AIOutcome.failure "down") postNsfw "news" "" (Or.inl rfl)
  exact ⟨h.1.1, h.1.2.1, h.2.2.2 rfl⟩

/-! # Source-specific trending score
(`RedditService._calculate_trending_score`). -/

namespace RedditSvc

/-- `RedditService._calculate_trending_score`: the convex combination of
normalized score, upvote ratio, engagement ratio, time decay and awards,
with algorithm-specific weights, clamped to [0.1, 1.0]. A zero float
denominator in the time-decay term raises `ZeroDivisionError` in Python and
falls to the `except` branch, which returns the clamped simple score. -/
def calculate_trending_score (post : RedditPost) (algorithm : String)
    (current_time : ℚ) : ℚ :=
  let post_age_hours := (current_time - post.created_utc) / 3600
  if 1 + post_age_hours / 24 = 0 then
    max (1/10) (min 1 ((post.score : ℚ) / 10000))
  else
    let base_score := max (1/10) (min 1 ((post.score : ℚ) / 10000))
    let engagement_ratio :=
      if post.score > 0 then min 1 ((post.num_comments : ℚ) / (post.score : ℚ)) else 0
    let time_decay := max (1/10) (1 / (1 + post_age_hours / 24))
    let awards_factor := min 1 ((post.total_awards_received : ℚ) / 10)
    let trending_score :=
      if algorithm = "hot" then
        base_score * 0.4 + post.upvote_ratio * 0.2 + engagement_ratio * 0.2 +
          time_decay * 0.15 + awards_factor * 0.05
      else if algorithm = "top" then
        base_score * 0.6 + post.upvote_ratio * 0.2 + engagement_ratio * 0.1 +
          awards_factor * 0.1
      else if algorithm = "rising" then
        base_score * 0.3 + post.upvote_ratio * 0.2 + engagement_ratio * 0.2 +
          time_decay * 0.25 + awards_factor * 0.05
      else
        base_score * 0.2 + post.upvote_ratio * 0.3 + engagement_ratio * 0.2 +
          time_decay * 0.3
    max (1/10) (min 1 trending_score)

end RedditSvc

/-! # Enrichment stage sustainability score
(`DataEnrichmentService._calculate_sustainability_score`). -/

namespace Enrichment

/-- `_calculate_sustainability_score`: 30% of the prior trend score, plus
bucketed bonuses for 7-day search-volume growth, related-coverage count and
sentiment, plus 10% of the opportunity score, clamped to [0, 100]. The
nested `dict.get(..., default)` reads are modelled as `Option` inputs with
the same defaults. -/
def calculate_sustainability_score (trend_score : ℚ) (volume_change_7d : Option ℚ)
    (related_news_count : ℕ) (sentiment_score : Option ℚ)
    (opportunity_score : Option ℚ) : ℚ :=
  let score0 := trend_score * 0.3
  let vc := volume_change_7d.getD 0
  let score1 := score0 + (if vc > 20 then 30 else if vc > 0 then 15 else 0)
  let score2 := score1 +
    (if related_news_count ≥ 5 then 20
     else if related_news_count ≥ 3 then 15
     else if related_news_count ≥ 1 then 10 else 0)
  let ss := sentiment_score.getD 0
  let score3 := score2 + (if ss > 1/2 then 10 else if ss > 0 then 5 else 0)
  let score4 := score3 + (opportunity_score.getD 50) * 0.1
  min 100 (max 0 score4)

end Enrichment

/-! # Scoring engine (`backend/app/tasks/trend_scoring.py`). -/

namespace TrendScoring

/-- `_calculate_pr_potential`: coverage count, bucketed search growth,
positive-sentiment share, geographic reach, opportunity score; clamped to
[0, 100]. (The `sentiment_score` read in the source is never used.) -/
def calculate_pr_potential (related_news_count : ℕ) (volume_change_7d : Option ℚ)
    (positive_percentage : Option ℚ) (countries_count : ℕ)
    (opportunity_score : Option ℚ) : ℚ :=
  let news_score := min 30 ((related_news_count : ℚ) * 3)
  let vc := volume_change_7d.getD 0
  let score1 := news_score + (if vc > 50 then 25 else if vc > 20 then 20 else if vc > 0 then 15 else 0)
  let score2 := score1 + (positive_percentage.getD 50) / 100 * 20
  let score3 := score2 + min 15 ((countries_count : ℚ) * 3)
  let score4 := score3 + (opportunity_score.getD 50) / 100 * 10
  min 100 (max 0 score4)

/-- `_calculate_virality_potential`: bucketed 24h growth, age-group spread,
per-emotion bonuses, title-keyword bonuses; clamped to [0, 100]. -/
def calculate_virality_potential (volume_change_24h : Option ℚ)
    (age_groups_count : ℕ) (emotional_indicators : List String)
    (title : String) : ℚ :=
  let vc := volume_change_24h.getD 0
  let score1 :=
    if vc > 100 then 40 else if vc > 50 then 30 else if vc > 20 then 20
    else if vc > 0 then 10 else (0:ℚ)
  let score2 := score1 +
    (if age_groups_count ≥ 4 then 25 else if age_groups_count ≥ 3 then 20
     else if age_groups_count ≥ 2 then 15 else 0)
  let score3 := score2 + (if emotional_indicators.contains "excitement" then 8 else 0)
  let score4 := score3 + (if emotional_indicators.contains "curiosity" then 6 else 0)
  let score5 := score4 + (if emotional_indicators.contains "surprise" then 6 else 0)
  let score6 := score5 +
    (if ["viral", "trending", "breaking", "shocking", "amazing"].any
        (fun k => pyContains (pyLower title) k) then 15
     else if ["new", "latest", "exclusive", "first"].any
        (fun k => pyContains (pyLower title) k) then 10 else 0)
  min 100 (max 0 score6)

/-- The fixed per-risk-factor deduction table of
`_calculate_brand_safety_score`. -/
def risk_deductions : List (String × ℚ) :=
  [("political sensitivity", 20), ("potential controversy", 15),
   ("adult content", 30), ("violence", 25), ("illegal activity", 40),
   ("hate speech", 35), ("misinformation", 25)]

/-- The controversial-keyword list of `_calculate_brand_safety_score`. -/
def controversial_keywords : List String :=
  ["scandal", "controversy", "lawsuit", "arrest", "banned",
   "illegal", "fraud", "scam", "fake", "conspiracy"]

/-- `_calculate_brand_safety_score`: start at 100, subtract per-risk-factor
deductions (10 when unlisted), tiered negative-sentiment penalties and 10
per controversial keyword in the title; clamped to [0, 100]. -/
def calculate_brand_safety_score (risk_factors : List String)
    (negative_percentage : Option ℚ) (title : String) : ℚ :=
  let deduction := fun (rf : String) =>
    (((risk_deductions.find? (fun p => p.1 == pyLower rf)).map Prod.snd).getD 10 : ℚ)
  let score1 := 100 - (risk_factors.map deduction).sum
  let np := negative_percentage.getD 0
  let score2 := score1 - (if np > 30 then 15 else if np > 20 then 10 else if np > 10 then 5 else 0)
  let score3 := score2 -
    10 * ((controversial_keywords.filter (fun k => pyContains (pyLower title) k)).length : ℚ)
  max 0 (min 100 score3)

/-- `_calculate_overall_score`: Python-`or` defaults (50/50/50/50/75), the
25/25/20/15/15 weighted sum, the 20% penalty when the (defaulted) brand
safety is below 50, and the final clamp to [0, 100]. -/
def calculate_overall_score (score sustainability_score pr_potential_score
    viral_potential_score brand_safety_score : Option ℚ) : ℚ :=
  let base_score := pyOr score 50
  let sustainability := pyOr sustainability_score 50
  let pr_potential := pyOr pr_potential_score 50
  let viral_potential := pyOr viral_potential_score 50
  let brand_safety := pyOr brand_safety_score 75
  let overall_score :=
    base_score * 0.25 + sustainability * 0.25 + pr_potential * 0.20 +
      viral_potential * 0.15 + brand_safety * 0.15
  let overall_score2 := if brand_safety < 50 then overall_score * 0.8 else overall_score
  min 100 (max 0 overall_score2)

end TrendScoring

/-- The overall score is clamped into [0, 100] for all inputs. -/
theorem overall_score_bounds (score sustainability_score pr_potential_score
    viral_potential_score brand_safety_score : Option ℚ) :
    0 ≤ TrendScoring.calculate_overall_score score sustainability_score
        pr_potential_score viral_potential_score brand_safety_score ∧
      TrendScoring.calculate_overall_score score sustainability_score
        pr_potential_score viral_potential_score brand_safety_score ≤ 100 := by
  simp only [TrendScoring.calculate_overall_score]
  exact clamp_min_max_mem _ _ _ (by norm_num)

/-- C9: every score function stays inside its documented closed interval for
all inputs, however pathological: the source trending score in [0.1, 1.0],
and sustainability, PR potential, viral potential, brand safety and the
overall score in [0, 100]. -/
theorem C9_score_bounds :
    (∀ (post : RedditSvc.RedditPost) (algorithm : String) (current_time : ℚ),
      1/10 ≤ RedditSvc.calculate_trending_score post algorithm current_time ∧
        RedditSvc.calculate_trending_score post algorithm current_time ≤ 1) ∧
    (∀ (trend_score : ℚ) (volume_change_7d : Option ℚ) (related_news_count : ℕ)
        (sentiment_score opportunity_score : Option ℚ),
      0 ≤ Enrichment.calculate_sustainability_score trend_score volume_change_7d
          related_news_count sentiment_score opportunity_score ∧
        Enrichment.calculate_sustainability_score trend_score volume_change_7d
          related_news_count sentiment_score opportunity_score ≤ 100) ∧
    (∀ (related_news_count : ℕ) (volume_change_7d positive_percentage : Option ℚ)
        (countries_count : ℕ) (opportunity_score : Option ℚ),
      0 ≤ TrendScoring.calculate_pr_potential related_news_count volume_change_7d
          positive_percentage countries_count opportunity_score ∧
        TrendScoring.calculate_pr_potential related_news_count volume_change_7d
          positive_percentage countries_count opportunity_score ≤ 100) ∧
    (∀ (volume_change_24h : Option ℚ) (age_groups_count : ℕ)
        (emotional_indicators : List String) (title : String),
      0 ≤ TrendScoring.calculate_virality_potential volume_change_24h age_groups_count
          emotional_indicators title ∧
        TrendScoring.calculate_virality_potential volume_change_24h age_groups_count
          emotional_indicators title ≤ 100) ∧
    (∀ (risk_factors : List String) (negative_percentage : Option ℚ) (title : String),
      0 ≤ TrendScoring.calculate_brand_safety_score risk_factors negative_percentage
          title ∧
        TrendScoring.calculate_brand_safety_score risk_factors negative_percentage
          title ≤ 100) ∧
    (∀ (score sustainability_score pr_potential_score viral_potential_score
        brand_safety_score : Option ℚ),
      0 ≤ TrendScoring.calculate_overall_score score sustainability_score
          pr_potential_score viral_potential_score brand_safety_score ∧
        TrendScoring.calculate_overall_score score sustainability_score
          pr_potential_score viral_potential_score brand_safety_score ≤ 100) := by
  refine ⟨?_, ?_, ?_, ?_, ?_, ?_⟩
  · intro post algorithm current_time
    simp only [RedditSvc.calculate_trending_score]
    by_cases h0 : 1 + (current_time - post.created_utc) / 3600 / 24 = 0
    · rw [if_pos h0]
      exact clamp_max_min_mem _ _ _ (by norm_num)
    · rw [if_neg h0]
      exact clamp_max_min_mem _ _ _ (by norm_num)
  · intro trend_score volume_change_7d related_news_count sentiment_score opportunity_score
    simp only [Enrichment.calculate_sustainability_score]
    exact clamp_min_max_mem _ _ _ (by norm_num)
  · intro related_news_count volume_change_7d positive_percentage countries_count
      opportunity_score
    simp only [TrendScoring.calculate_pr_potential]
    exact clamp_min_max_mem _ _ _ (by norm_num)
  · intro volume_change_24h age_groups_count emotional_indicators title
    simp only [TrendScoring.calculate_virality_potential]
    exact clamp_min_max_mem _ _ _ (by norm_num)
  · intro risk_factors negative_percentage title
    simp only [TrendScoring.calculate_brand_safety_score]
    exact clamp_max_min_mem _ _ _ (by norm_num)
  · exact overall_score_bounds

/-- C7: the overall score is the weighted sum
0.25·base + 0.25·sustainability + 0.20·PR + 0.15·viral + 0.15·brand-safety
(on the Python-`or` defaulted components), times 0.8 exactly when the
defaulted brand-safety component is below 50; whenever each defaulted
component lies in [0, 100] the clamp is the identity and the score equals
that formula, and for all inputs the result lies in [0, 100]. -/
theorem C7_overall_score :
    (∀ (score sustainability_score pr_potential_score viral_potential_score
        brand_safety_score : Option ℚ),
      0 ≤ pyOr score 50 → pyOr score 50 ≤ 100 →
      0 ≤ pyOr sustainability_score 50 → pyOr sustainability_score 50 ≤ 100 →
      0 ≤ pyOr pr_potential_score 50 → pyOr pr_potential_score 50 ≤ 100 →
      0 ≤ pyOr viral_potential_score 50 → pyOr viral_potential_score 50 ≤ 100 →
      0 ≤ pyOr brand_safety_score 75 → pyOr brand_safety_score 75 ≤ 100 →
      TrendScoring.calculate_overall_score score sustainability_score pr_potential_score
          viral_potential_score brand_safety_score =
        (if pyOr brand_safety_score 75 < 50 then
          (pyOr score 50 * 0.25 + pyOr sustainability_score 50 * 0.25 +
            pyOr pr_potential_score 50 * 0.20 + pyOr viral_potential_score 50 * 0.15 +
            pyOr brand_safety_score 75 * 0.15) * 0.8
        else
          pyOr score 50 * 0.25 + pyOr sustainability_score 50 * 0.25 +
            pyOr pr_potential_score 50 * 0.20 + pyOr viral_potential_score 50 * 0.15 +
            pyOr brand_safety_score 75 * 0.15)) ∧
    (∀ (score sustainability_score pr_potential_score viral_potential_score
        brand_safety_score : Option ℚ),
      0 ≤ TrendScoring.calculate_overall_score score sustainability_score
          pr_potential_score viral_potential_score brand_safety_score ∧
        TrendScoring.calculate_overall_score score sustainability_score
          pr_potential_score viral_potential_score brand_safety_score ≤ 100) := by
  constructor
  · intro score sus pr vir saf hb1 hb2 hs1 hs2 hp1 hp2 hv1 hv2 hf1 hf2
    simp only [TrendScoring.calculate_overall_score]
    by_cases hpen : pyOr saf 75 < 50
    · rw [if_pos hpen, max_eq_right (by nlinarith), min_eq_right (by nlinarith)]
    · rw [if_neg hpen, max_eq_right (by nlinarith), min_eq_right (by nlinarith)]
  · exact overall_score_bounds

/-- Witness for C7 at concrete components: 80/60/40/20/40 (defaulted brand
safety 40 < 50 triggers the penalty) gives
(0.25·80 + 0.25·60 + 0.20·40 + 0.15·20 + 0.15·40)·0.8 = 41.6. -/
theorem C7_overall_score_witness :
    TrendScoring.calculate_overall_score (some 80) (some 60) (some 40) (some 20)
      (some 40) = 41.6 := by
  have h := C7_overall_score.1 (some 80) (some 60) (some 40) (some 20) (some 40)
    (by norm_num [pyOr]) (by norm_num [pyOr]) (by norm_num [pyOr]) (by norm_num [pyOr])
    (by norm_num [pyOr]) (by norm_num [pyOr]) (by norm_num [pyOr]) (by norm_num [pyOr])
    (by norm_num [pyOr]) (by norm_num [pyOr])
  rw [h]
  norm_num [pyOr]

/-- C10: in the overall-score computation every missing (`None`) component
is replaced by its fixed default before weighting — 50 for base score,
sustainability, PR potential and viral potential, 75 for brand safety — so
a trend with no computed sub-scores still gets the defined overall score
53.75 instead of an error. -/
theorem C10_overall_defaults :
    (∀ (sus pr vir saf : Option ℚ),
      TrendScoring.calculate_overall_score none sus pr vir saf =
        TrendScoring.calculate_overall_score (some 50) sus pr vir saf) ∧
    (∀ (sc pr vir saf : Option ℚ),
      TrendScoring.calculate_overall_score sc none pr vir saf =
        TrendScoring.calculate_overall_score sc (some 50) pr vir saf) ∧
    (∀ (sc sus vir saf : Option ℚ),
      TrendScoring.calculate_overall_score sc sus none vir saf =
        TrendScoring.calculate_overall_score sc sus (some 50) vir saf) ∧
    (∀ (sc sus pr saf : Option ℚ),
      TrendScoring.calculate_overall_score sc sus pr none saf =
        TrendScoring.calculate_overall_score sc sus pr (some 50) saf) ∧
    (∀ (sc sus pr vir : Option ℚ),
      TrendScoring.calculate_overall_score sc sus pr vir none =
        TrendScoring.calculate_overall_score sc sus pr vir (some 75)) ∧
    TrendScoring.calculate_overall_score none none none none none = 53.75 := by
  have h50 : pyOr (some 50) 50 = pyOr none 50 := by norm_num [pyOr]
  have h75 : pyOr (some 75) 75 = pyOr none 75 := by norm_num [pyOr]
  refine ⟨?_, ?_, ?_, ?_, ?_, ?_⟩
  · intro sus pr vir saf
    simp only [TrendScoring.calculate_overall_score, h50]
  · intro sc pr vir saf
    simp only [TrendScoring.calculate_overall_score, h50]
  · intro sc sus vir saf
    simp only [TrendScoring.calculate_overall_score, h50]
  · intro sc sus pr saf
    simp only [TrendScoring.calculate_overall_score, h50]
  · intro sc sus pr vir
    simp only [TrendScoring.calculate_overall_score, h75]
  · simp only [TrendScoring.calculate_overall_score, pyOr_none]
    norm_num [min_def, max_def]

/-! # Deduplication & aggregation
(`backend/app/tasks/daily_analysis.py`, `_process_and_deduplicate_trends`). -/

namespace Dedup

/-- A stored `Trend` row, restricted to the fields
`_process_and_deduplicate_trends` reads or writes (the free-form `metadata`
dict is omitted: the dedup pass only copies it). Platform lists carry set
semantics (`list(set(...))`), so they are modelled as finite sets.
Timestamps are seconds. -/
structure TrendRec where
  title : String
  description : Option String
  category : Option String
  score : ℚ
  velocity : ℚ
  volume : ℤ
  platforms : Finset String
  keywords : List String
  source_urls : List String
  status : String
  created_at : ℤ
  updated_at : ℤ
  first_seen_at : ℤ
deriving DecidableEq

/-- A raw candidate `trend_data` dict, with the `dict.get` defaults of the
create branch already applied to the optional fields. -/
structure Candidate where
  title : String
  description : Option String
  category : Option String
  score : ℚ
  velocity : ℚ
  volume : ℤ
  platforms : Finset String
  keywords : List String
  source_urls : List String
deriving DecidableEq

/-- The match predicate of the dedup query: title `ilike`
`%trend_data['title'][:50]%` (case-insensitive containment of the first 50
characters; SQL wildcard escaping inside the fragment is not modelled),
status `active`, and `created_at` within the trailing 7-day window. -/
def dedup_match (now : ℤ) (c : Candidate) (t : TrendRec) : Bool :=
  pyContains (pyLower t.title) (pyLower (pyTake c.title 50)) &&
    (t.status == "active") && decide (now - 7 * 86400 ≤ t.created_at)

/-- SQLAlchemy `Result.scalar_one_or_none`: `none` on no row, the row when
unique, `MultipleResultsFound` otherwise. -/
def scalar_one_or_none {α : Type} (l : List α) : Except String (Option α) :=
  match l with
  | [] => Except.ok none
  | [t] => Except.ok (some t)
  | _ => Except.error "MultipleResultsFound"

/-- The merge branch: accumulate volume, union the platform sets
(`list(set(existing + new))`), bump `updated_at`. -/
def merge_trend (now : ℤ) (t : TrendRec) (c : Candidate) : TrendRec :=
  { t with
    volume := t.volume + c.volume
    platforms := t.platforms ∪ c.platforms
    updated_at := now }

/-- The create branch: a new trend seeded from the candidate, with
`first_seen_at = now` (and the ORM column defaults `status="active"`,
`created_at`/`updated_at` = now). -/
def new_trend (now : ℤ) (c : Candidate) : TrendRec :=
  { title := c.title
    description := c.description
    category := c.category
    score := c.score
    velocity := c.velocity
    volume := c.volume
    platforms := c.platforms
    keywords := c.keywords
    source_urls := c.source_urls
    status := "active"
    created_at := now
    updated_at := now
    first_seen_at := now }

/-- One candidate's pass through `_process_and_deduplicate_trends`: query
the matching trends, merge into the unique match when there is one, create
a new trend when there is none, and propagate `MultipleResultsFound` when
the match is ambiguous. -/
def process_trend (now : ℤ) (db : List TrendRec) (c : Candidate) :
    Except String (List TrendRec) :=
  match scalar_one_or_none (db.filter (dedup_match now c)) with
  | Except.error e => Except.error e
  | Except.ok (some t) =>
      Except.ok (db.map (fun u => if u = t then merge_trend now t c else u))
  | Except.ok none => Except.ok (db ++ [new_trend now c])

end Dedup

/-- C6: when exactly one existing active trend inside the 7-day recency
window matches the candidate's normalized title fragment, that trend is
merged — volume grows by the candidate's volume, the platform set becomes
the union of the two (so it never shrinks), `updated_at` is bumped — and no
new trend is created (the store keeps its length); when no trend matches, a
new trend seeded from the candidate is created with `first_seen_at = now`. -/
theorem C6_dedup (now : ℤ) (db : List Dedup.TrendRec) (c : Dedup.Candidate)
    (t : Dedup.TrendRec) :
    (db.filter (Dedup.dedup_match now c) = [t] →
      Dedup.process_trend now db c =
        Except.ok (db.map (fun u => if u = t then Dedup.merge_trend now t c else u)) ∧
      (Dedup.merge_trend now t c).volume = t.volume + c.volume ∧
      (Dedup.merge_trend now t c).platforms = t.platforms ∪ c.platforms ∧
      t.platforms ⊆ (Dedup.merge_trend now t c).platforms ∧
      (Dedup.merge_trend now t c).updated_at = now ∧
      (db.map (fun u => if u = t then Dedup.merge_trend now t c else u)).length =
        db.length) ∧
    (db.filter (Dedup.dedup_match now c) = [] →
      Dedup.process_trend now db c = Except.ok (db ++ [Dedup.new_trend now c]) ∧
      (Dedup.new_trend now c).first_seen_at = now ∧
      (db ++ [Dedup.new_trend now c]).length = db.length + 1) := by
  constructor
  · intro h
    refine ⟨?_, rfl, rfl, Finset.subset_union_left, rfl, List.length_map _ _⟩
    simp only [Dedup.process_trend, h, Dedup.scalar_one_or_none]
  · intro h
    refine ⟨?_, rfl, by simp⟩
    simp only [Dedup.process_trend, h, Dedup.scalar_one_or_none]

/-- An existing active trend matching `candEx` within the window. -/
def trendEx : Dedup.TrendRec :=
  { title := "City announces new park", description := none, category := none,
    score := 1/2, velocity := 1/10, volume := 10, platforms := {"reddit"},
    keywords := [], source_urls := [], status := "active",
    created_at := 0, updated_at := 0, first_seen_at := 0 }

/-- A candidate with the same normalized title arriving one day later. -/
def candEx : Dedup.Candidate :=
  { title := "City announces new park", description := none, category := none,
    score := 3/5, velocity := 1/5, volume := 5, platforms := {"google"},
    keywords := [], source_urls := [] }

/-- Witness for C6 at concrete inputs: with the one matching trend stored,
the candidate merges into it (no duplicate row); against an empty store the
candidate creates a new trend with `first_seen_at = now`. -/
theorem C6_dedup_witness :
    Dedup.process_trend 86400 [trendEx] candEx =
      Except.ok [Dedup.merge_trend 86400 trendEx candEx] ∧
    Dedup.process_trend 86400 [] candEx =
      Except.ok [Dedup.new_trend 86400 candEx] := by
  have h1 := (C6_dedup 86400 [trendEx] candEx trendEx).1
  have h2 := (C6_dedup 86400 [] candEx trendEx).2
  constructor
  · have := (h1 rfl).1
    simpa using this
  · simpa using (h2 rfl).1

/-! # Trend decay (`backend/app/tasks/trend_scoring.py`,
`_run_decay_analysis`). -/

namespace Decay

/-- A stored trend as the decay pass sees it: creation time (seconds) and
the three decayed scores (the two optional ones are read through
Python `or 50.0`). -/
structure DecayTrend where
  created_at : ℤ
  score : ℚ
  sustainability_score : Option ℚ
  pr_potential_score : Option ℚ
deriving DecidableEq, Repr

/-- `max(0.1, 1.0 - (age_days * 0.1))`: 10%-per-day linear decay floored at
0.1. -/
def decay_factor (age_days : ℤ) : ℚ :=
  max (1/10) (1 - (age_days : ℚ) * 0.1)

/-- `(datetime.utcnow() - trend.created_at).days`: whole elapsed days,
floored (Python `timedelta.days` floors toward minus infinity). -/
def age_days (now : ℤ) (t : DecayTrend) : ℤ :=
  (now - t.created_at).fdiv 86400

/-- The loop body of `_run_decay_analysis`: multiply `score`,
`sustainability_score` (defaulted by `or 50.0`) and `pr_potential_score`
(likewise) by the decay factor. -/
def apply_decay (a : ℤ) (t : DecayTrend) : DecayTrend :=
  { t with
    score := t.score * decay_factor a
    sustainability_score := some (pyOr t.sustainability_score 50 * decay_factor a)
    pr_potential_score := some (pyOr t.pr_potential_score 50 * decay_factor a) }

/-- One full decay pass: every trend created more than 3 days ago (the
query cutoff `created_at < utcnow() - timedelta(days=3)`) is decayed by its
age; the rest are untouched. -/
def run_decay_pass (now : ℤ) (db : List DecayTrend) : List DecayTrend :=
  db.map (fun t => if t.created_at < now - 3 * 86400 then apply_decay (age_days now t) t else t)

theorem apply_decay_score (a : ℤ) (t : DecayTrend) :
    (apply_decay a t).score = t.score * decay_factor a := rfl

theorem apply_decay_created_at (a : ℤ) (t : DecayTrend) :
    (apply_decay a t).created_at = t.created_at := rfl

theorem decay_factor_pos (a : ℤ) : 0 < decay_factor a :=
  lt_of_lt_of_le (by norm_num) (le_max_left _ _)

theorem run_decay_pass_singleton (now : ℤ) (t : DecayTrend)
    (h : t.created_at < now - 3 * 86400) :
    run_decay_pass now [t] = [apply_decay (age_days now t) t] := by
  simp only [run_decay_pass, List.map_cons, List.map_nil]
  rw [if_pos h]

end Decay

/-- An example trend for the decay pass: created at epoch 0, score 100,
stored sub-scores 50. -/
def decayTrendEx : Decay.DecayTrend :=
  { created_at := 0, score := 100, sustainability_score := some 50,
    pr_potential_score := some 50 }

/-- C8 counterexample: the claim "applying decay twice at the same instant
equals applying it once" is false on the code. Four days after creation one
pass multiplies the score by 0.6 (100 → 60); a second pass at the same
instant multiplies it again (60 → 36), so the two-pass state differs from
the one-pass state. -/
theorem C8_decay_counterexample :
    Decay.run_decay_pass 345600 (Decay.run_decay_pass 345600 [decayTrendEx]) ≠
      Decay.run_decay_pass 345600 [decayTrendEx] := by
  intro h
  have hage : Decay.age_days 345600 decayTrendEx = 4 := by decide
  have hc : decayTrendEx.created_at < 345600 - 3 * 86400 := by decide
  have h1 : Decay.run_decay_pass 345600 [decayTrendEx] =
      [Decay.apply_decay 4 decayTrendEx] := by
    rw [Decay.run_decay_pass_singleton 345600 decayTrendEx hc, hage]
  have hc2 : (Decay.apply_decay 4 decayTrendEx).created_at < 345600 - 3 * 86400 := by decide
  have hage2 : Decay.age_days 345600 (Decay.apply_decay 4 decayTrendEx) = 4 := by decide
  have h2 : Decay.run_decay_pass 345600 [Decay.apply_decay 4 decayTrendEx] =
      [Decay.apply_decay 4 (Decay.apply_decay 4 decayTrendEx)] := by
    rw [Decay.run_decay_pass_singleton 345600 _ hc2, hage2]
  rw [h1, h2] at h
  have hsc := congrArg (fun l => (l.headD decayTrendEx).score) h
  simp only [List.headD_cons, Decay.apply_decay_score] at hsc
  have hf : Decay.decay_factor 4 = 3/5 := by
    rw [Decay.decay_factor, max_eq_right (by norm_num)]
    norm_num
  rw [hf] at hsc
  norm_num [decayTrendEx] at hsc

/-- C8 (amended): for every trend past the 3-day age cutoff, one decay pass
multiplies score, sustainability and PR potential each by
`max(0.1, 1 − age_days·0.1)` (the optional scores through their `or 50.0`
defaults); a second pass at the same instant multiplies by the same factor
again, so the two-pass scores equal the one-pass scores times the factor
once more (compounding), not the one-pass scores. -/
theorem C8_decay_amended (now : ℤ) (t : Decay.DecayTrend)
    (h : t.created_at < now - 3 * 86400) :
    (Decay.run_decay_pass now [t] = [Decay.apply_decay (Decay.age_days now t) t] ∧
      (Decay.apply_decay (Decay.age_days now t) t).score =
        t.score * Decay.decay_factor (Decay.age_days now t) ∧
      (Decay.apply_decay (Decay.age_days now t) t).sustainability_score =
        some (pyOr t.sustainability_score 50 * Decay.decay_factor (Decay.age_days now t)) ∧
      (Decay.apply_decay (Decay.age_days now t) t).pr_potential_score =
        some (pyOr t.pr_potential_score 50 * Decay.decay_factor (Decay.age_days now t))) ∧
    (Decay.run_decay_pass now (Decay.run_decay_pass now [t]) =
        [Decay.apply_decay (Decay.age_days now t)
          (Decay.apply_decay (Decay.age_days now t) t)] ∧
      (Decay.apply_decay (Decay.age_days now t)
          (Decay.apply_decay (Decay.age_days now t) t)).score =
        t.score * (Decay.decay_factor (Decay.age_days now t) *
          Decay.decay_factor (Decay.age_days now t)) ∧
      (Decay.apply_decay (Decay.age_days now t)
          (Decay.apply_decay (Decay.age_days now t) t)).sustainability_score =
        some (pyOr t.sustainability_score 50 *
          (Decay.decay_factor (Decay.age_days now t) *
            Decay.decay_factor (Decay.age_days now t))) ∧
      (Decay.apply_decay (Decay.age_days now t)
          (Decay.apply_decay (Decay.age_days now t) t)).pr_potential_score =
        some (pyOr t.pr_potential_score 50 *
          (Decay.decay_factor (Decay.age_days now t) *
            Decay.decay_factor (Decay.age_days now t)))) := by
  have hfne : Decay.decay_factor (Decay.age_days now t) ≠ 0 :=
    ne_of_gt (Decay.decay_factor_pos _)
  have hone : Decay.run_decay_pass now [t] =
      [Decay.apply_decay (Decay.age_days now t) t] :=
    Decay.run_decay_pass_singleton now t h
  have hc2 : (Decay.apply_decay (Decay.age_days now t) t).created_at < now - 3 * 86400 := h
  have hage2 : Decay.age_days now (Decay.apply_decay (Decay.age_days now t) t) =
      Decay.age_days now t := rfl
  have htwo : Decay.run_decay_pass now (Decay.run_decay_pass now [t]) =
      [Decay.apply_decay (Decay.age_days now t)
        (Decay.apply_decay (Decay.age_days now t) t)] := by
    rw [hone, Decay.run_decay_pass_singleton now _ hc2, hage2]
  have hsus : pyOr (some (pyOr t.sustainability_score 50 *
      Decay.decay_factor (Decay.age_days now t))) 50 =
      pyOr t.sustainability_score 50 * Decay.decay_factor (Decay.age_days now t) :=
    pyOr_some_of_ne_zero _ _
      (mul_ne_zero (pyOr_ne_zero _ _ (by norm_num)) hfne)
  have hpr : pyOr (some (pyOr t.pr_potential_score 50 *
      Decay.decay_factor (Decay.age_days now t))) 50 =
      pyOr t.pr_potential_score 50 * Decay.decay_factor (Decay.age_days now t) :=
    pyOr_some_of_ne_zero _ _
      (mul_ne_zero (pyOr_ne_zero _ _ (by norm_num)) hfne)
  refine ⟨⟨hone, rfl, rfl, rfl⟩, ⟨htwo, ?_, ?_, ?_⟩⟩
  · rw [Decay.apply_decay_score, Decay.apply_decay_score, mul_assoc]
  · show some (pyOr (some (pyOr t.sustainability_score 50 *
        Decay.decay_factor (Decay.age_days now t))) 50 *
        Decay.decay_factor (Decay.age_days now t)) = _
    rw [hsus, mul_assoc]
  · show some (pyOr (some (pyOr t.pr_potential_score 50 *
        Decay.decay_factor (Decay.age_days now t))) 50 *
        Decay.decay_factor (Decay.age_days now t)) = _
    rw [hpr, mul_assoc]

/-- Witness for the amended C8 at a concrete input: four days after
creation, one pass and two passes on the example trend take the shapes the
amended claim states. -/
theorem C8_decay_amended_witness :
    Decay.run_decay_pass 345600 [decayTrendEx] =
      [Decay.apply_decay (Decay.age_days 345600 decayTrendEx) decayTrendEx] ∧
    (Decay.apply_decay (Decay.age_days 345600 decayTrendEx)
        (Decay.apply_decay (Decay.age_days 345600 decayTrendEx) decayTrendEx)).score =
      decayTrendEx.score * (Decay.decay_factor (Decay.age_days 345600 decayTrendEx) *
        Decay.decay_factor (Decay.age_days 345600 decayTrendEx)) :=
  ⟨(C8_decay_amended 345600 decayTrendEx (by decide)).1.1,
    (C8_decay_amended 345600 decayTrendEx (by decide)).2.2.1⟩
